import Mathlib

/-
Verification of the ZKPulse authentication and authorization core.

The definitions below are a shallow embedding of the authentication surface
of the repository: the credential store (pinRegistryFallback), the login
endpoint, the token verification middleware (authenticateToken), the
object-level authorization check, the protected register-pin and check-pin
endpoints, and the client-side helpers simpleHash, validateCustomerId,
validatePin and handleSignIn from frontend/src/App.js.

JavaScript strings are modelled as Lean strings (charCodeAt becomes the
code point of the character), JavaScript string truthiness as the test
against the empty string, absent object fields as Option, and the signed
JWT as an inductive datatype whose verification succeeds exactly for a
token signed with the matching secret that has not yet expired.
-/

set_option autoImplicit false

namespace ZKPulse

/-- Truthiness of a JavaScript string: the empty string is falsy. -/
def jsTruthyStr (s : String) : Bool := s ≠ ""

/-- Truthiness of a possibly absent JavaScript string field: undefined and
the empty string are falsy. -/
def jsTruthyOpt (o : Option String) : Bool :=
  match o with
  | none => false
  | some s => s ≠ ""

/-- JavaScript or-default on a possibly absent string field, as in the
expression salt or default_salt: falsy values select the default. -/
def jsOrDefault (o : Option String) (d : String) : String :=
  match o with
  | none => d
  | some s => if s = "" then d else s

/-- ToInt32 conversion of JavaScript bitwise operators: reduce modulo 2^32
and reinterpret as a signed 32-bit value. -/
def toInt32 (n : Int) : Int :=
  if n % 4294967296 < 2147483648 then n % 4294967296 else n % 4294967296 - 4294967296

/-- Hexadecimal digit character, lowercase, as produced by toString(16). -/
def hexDigitChar (n : Nat) : Char :=
  if n < 10 then Char.ofNat (48 + n) else Char.ofNat (87 + n)

/-- Hexadecimal representation of a natural number, most significant digit
first, as produced by toString(16) on a nonnegative number. -/
def hexRep (n : Nat) : List Char :=
  if n < 16 then [hexDigitChar n]
  else hexRep (n / 16) ++ [hexDigitChar (n % 16)]
termination_by n
decreasing_by exact Nat.div_lt_self (by omega) (by omega)

/-- One iteration of the loop in simpleHash from frontend/src/App.js:
hash = ((hash << 5) - hash) + char, followed by hash = hash & hash, which
converts the value to a signed 32-bit integer. -/
def jsHashStep (h : Int) (c : Char) : Int :=
  toInt32 (toInt32 (h * 32) - h + (c.toNat : Int))

/-- simpleHash from frontend/src/App.js: iterate jsHashStep over the code
units of the PIN starting from 0, take Math.abs, render in hexadecimal and
pad on the left with zeros to 64 characters, then prepend 0x. -/
def simpleHash (pin : String) : String :=
  let h : Int := pin.data.foldl jsHashStep 0
  let digits : List Char := hexRep h.natAbs
  String.mk ('0' :: 'x' :: (List.replicate (64 - digits.length) '0' ++ digits))

/-- Character class of a hexadecimal digit in the output of simpleHash. -/
def isHexChar (c : Char) : Bool :=
  decide (('0' ≤ c ∧ c ≤ '9') ∨ ('a' ≤ c ∧ c ≤ 'f'))

/-! ## Credential store

The backend keeps the registered PIN hashes in the in-memory map
pinRegistryFallback; it is modelled as an association list with the
first-match lookup and replacing insertion of a Map. -/

/-- Record stored per customer by registerPINHash. -/
structure PinRecord where
  pinHash : String
  salt : String
  deriving DecidableEq, Repr

/-- The credential store: the in-memory map pinRegistryFallback. -/
abbrev Store := List (String × PinRecord)

/-- Lookup in the credential store, as pinRegistryFallback.get. -/
def lookupStore (store : Store) (cid : String) : Option PinRecord :=
  match store with
  | [] => none
  | (k, r) :: rest => if k = cid then some r else lookupStore rest cid

/-- Insertion or overwrite in the credential store, as
pinRegistryFallback.set inside registerPINHash. -/
def putStore (store : Store) (cid : String) (rec : PinRecord) : Store :=
  match store with
  | [] => [(cid, rec)]
  | (k, r) :: rest =>
    if k = cid then (cid, rec) :: rest else (k, r) :: putStore rest cid rec

/-! ## Tokens -/

/-- Payload signed into a token by the login endpoint. -/
structure TokenPayload where
  customerId : String
  authenticated : Bool
  timestamp : Nat
  deriving DecidableEq, Repr

/-- A JWT: either a token produced by signing a payload with a secret and
an expiry instant, or an arbitrary malformed string. -/
inductive Jwt where
  | signed (payload : TokenPayload) (secret : String) (exp : Nat)
  | malformed (raw : String)
  deriving DecidableEq, Repr

/-- The fixed validity window advertised by the backend. -/
def JWT_EXPIRY : String := "24h"

/-- The fixed validity window in seconds: 24 hours. -/
def JWT_EXPIRY_SECONDS : Nat := 86400

/-- jwt.sign with expiresIn JWT_EXPIRY: a token expiring 24 hours after
the signing instant. -/
def jwtSign (payload : TokenPayload) (secret : String) (now : Nat) : Jwt :=
  Jwt.signed payload secret (now + JWT_EXPIRY_SECONDS)

/-- jwt.verify: succeeds exactly on a token signed with the matching
secret whose expiry lies strictly in the future. -/
def jwtVerify (t : Jwt) (secret : String) (now : Nat) : Option TokenPayload :=
  match t with
  | Jwt.signed p s exp => if s = secret ∧ now < exp then some p else none
  | Jwt.malformed _ => none

/-! ## Responses -/

/-- Error taxonomy of the design: a 400 from a missing field is a
ValidationError, a 401 or 403 from the token checks or the credential
check is an AuthenticationError, and the 403 from the object-level
ownership check is an AuthorizationError. -/
inductive ErrClass where
  | validation
  | authentication
  | authorization
  deriving DecidableEq, Repr

/-- An HTTP response together with the JSON body fields used by the
endpoints of the authentication core; absent fields are none. -/
structure Response where
  status : Nat
  bodyStatus : Option String := none
  error : Option String := none
  message : Option String := none
  token : Option Jwt := none
  customerId : Option String := none
  fieldType : Option String := none
  expiresIn : Option String := none
  pinHashRegistered : Option Bool := none
  pinRegistered : Option Bool := none
  errClass : Option ErrClass := none
  deriving DecidableEq, Repr

/-! ## Login endpoint (POST /api/login) -/

/-- Request body of the login endpoint. -/
structure LoginBody where
  customerId : Option String
  pinHash : Option String
  deriving DecidableEq, Repr

/-- Response returned by the login endpoint when customerId or pinHash is
missing; a constant independent of the credential store. -/
def loginMissingFieldsResponse : Response :=
  { status := 400
    error := some "customerId and pinHash are required"
    fieldType := some "VALIDATION_ERROR"
    errClass := some ErrClass.validation }

/-- The login endpoint after the SL-1 fix (backend/src/index.js): validate
both fields, look up the stored record, compare the presented pinHash with
the stored one by string equality, and sign a token only on success.  The
handler never writes to the store; the store is returned unchanged. -/
def postLogin (store : Store) (body : LoginBody) (secret : String) (now : Nat) :
    Response × Store :=
  if !jsTruthyOpt body.customerId || !jsTruthyOpt body.pinHash then
    (loginMissingFieldsResponse, store)
  else
    let cid := body.customerId.getD ""
    let ph := body.pinHash.getD ""
    match lookupStore store cid with
    | none =>
      ({ status := 401
         error := some "Authentication failed"
         message := some "No PIN registered for this customer. Please register first."
         customerId := some cid
         errClass := some ErrClass.authentication }, store)
    | some stored =>
      if stored.pinHash ≠ ph then
        ({ status := 401
           error := some "Authentication failed"
           message := some "Invalid PIN. Authentication failed."
           customerId := some cid
           errClass := some ErrClass.authentication }, store)
      else
        ({ status := 200
           bodyStatus := some "success"
           message := some "Authentication successful"
           token := some (jwtSign ⟨cid, true, now⟩ secret now)
           customerId := some cid
           expiresIn := some JWT_EXPIRY }, store)

/-! ## Token verification middleware -/

/-- Authorization header of a protected request, abstracted by the parse
performed by authenticateToken: the header can be absent, present without
a nonempty second space-separated part, or carry a bearer token. -/
inductive Header where
  | missing
  | noSecondPart (raw : String)
  | bearer (t : Jwt)
  deriving DecidableEq, Repr

/-- Outcome of the authenticateToken middleware. -/
inductive AuthResult where
  | noToken
  | invalidToken
  | ok (customerId : String)
  deriving DecidableEq, Repr

/-- authenticateToken from backend/src/index.js: a missing bearer token is
rejected, a token that fails jwt.verify is rejected distinctly, and
otherwise the customerId of the payload is attached to the request. -/
def authenticateToken (h : Header) (secret : String) (now : Nat) : AuthResult :=
  match h with
  | Header.missing => AuthResult.noToken
  | Header.noSecondPart _ => AuthResult.noToken
  | Header.bearer t =>
    match jwtVerify t secret now with
    | none => AuthResult.invalidToken
    | some p => AuthResult.ok p.customerId

/-- Modelled from the spec: the protectCustomerData middleware is not in
src/ (only its uses and descriptions are).  Per the spec it extracts the
target customerId from the request body or path and fails with
AuthorizationError when the target does not exactly equal the
authenticated customerId; a request naming no target passes through to
the handler. -/
def protectCustomerData (target : Option String) (ctxCid : String) : Bool :=
  match target with
  | some b => b = ctxCid
  | none => true

/-- Error kinds of the authorization pipeline, one per check. -/
inductive ErrKind where
  | noToken
  | badToken
  | idorMismatch
  deriving DecidableEq, Repr

/-- Response sent for each rejected check: 401 for a missing token, 403
for an invalid or expired token, 403 AuthorizationError for an ownership
mismatch. -/
def renderErr : ErrKind → Response
  | ErrKind.noToken =>
    { status := 401
      error := some "No authentication token provided"
      errClass := some ErrClass.authentication }
  | ErrKind.badToken =>
    { status := 403
      error := some "Invalid or expired token"
      errClass := some ErrClass.authentication }
  | ErrKind.idorMismatch =>
    { status := 403
      error := some "Access denied: you can only act on your own customer data"
      errClass := some ErrClass.authorization }

/-- Outcome of the middleware chain in front of a protected handler. -/
inductive GateResult where
  | rejected (e : ErrKind)
  | allowed (customerId : String)
  deriving DecidableEq, Repr

/-- The middleware chain of every protected endpoint: authenticateToken
followed by protectCustomerData on the target customerId named by the
request. -/
def gate (h : Header) (secret : String) (now : Nat) (target : Option String) :
    GateResult :=
  match authenticateToken h secret now with
  | AuthResult.noToken => GateResult.rejected ErrKind.noToken
  | AuthResult.invalidToken => GateResult.rejected ErrKind.badToken
  | AuthResult.ok cid =>
    if protectCustomerData target cid then GateResult.allowed cid
    else GateResult.rejected ErrKind.idorMismatch

/-! ## Protected endpoints -/

/-- Request body of the register-pin endpoint. -/
structure RegisterBody where
  customerId : Option String
  pinHash : Option String
  salt : Option String
  deriving DecidableEq, Repr

/-- Result of a protected endpoint: the response, the credential store
after the request, and whether the downstream handler executed. -/
structure EndpointResult where
  response : Response
  store : Store
  handlerRan : Bool
  deriving DecidableEq, Repr

/-- registerPINHash from backend/src/index.js: insert or overwrite the
record for the customer. -/
def registerPINHash (store : Store) (cid pinHash salt : String) : Store :=
  putStore store cid ⟨pinHash, salt⟩

/-- The register-pin handler body (backend/src/index.js): reject missing
fields with 400, repeat the ownership check against the authenticated
customerId, then store the record with the salt defaulted. -/
def registerPinHandler (ctxCid : String) (body : RegisterBody) (store : Store) :
    Response × Store :=
  if !jsTruthyOpt body.customerId || !jsTruthyOpt body.pinHash then
    ({ status := 400
       error := some "Missing customerId or pinHash"
       errClass := some ErrClass.validation }, store)
  else
    let cid := body.customerId.getD ""
    if cid ≠ ctxCid then
      ({ status := 403
         error := some "Access denied: You can only register PIN for your own customer ID"
         errClass := some ErrClass.authorization }, store)
    else
      ({ status := 200
         bodyStatus := some "success"
         message := some ("PIN registered for customer " ++ cid)
         customerId := some cid
         pinHashRegistered := some true },
       registerPINHash store cid (body.pinHash.getD "") (jsOrDefault body.salt "default_salt"))

/-- POST /api/register-pin: authenticateToken, then protectCustomerData on
the customerId of the body, then the handler. -/
def postRegisterPin (h : Header) (secret : String) (now : Nat)
    (body : RegisterBody) (store : Store) : EndpointResult :=
  match gate h secret now body.customerId with
  | GateResult.rejected e => ⟨renderErr e, store, false⟩
  | GateResult.allowed ctxCid =>
    let rs := registerPinHandler ctxCid body store
    ⟨rs.1, rs.2, true⟩

/-- Modelled from the spec: the body of the GET /api/check-pin/:customerId
handler is not in src/.  Per the spec it answers 200 with the boolean
registration status of the customer and performs no write. -/
def checkPinHandler (cid : String) (store : Store) : Response × Store :=
  ({ status := 200
     bodyStatus := some "success"
     customerId := some cid
     pinRegistered := some (lookupStore store cid).isSome }, store)

/-- GET /api/check-pin/:customerId: authenticateToken, then
protectCustomerData on the path parameter, then the handler. -/
def getCheckPin (h : Header) (secret : String) (now : Nat)
    (pathCid : String) (store : Store) : EndpointResult :=
  match gate h secret now (some pathCid) with
  | GateResult.rejected e => ⟨renderErr e, store, false⟩
  | GateResult.allowed cid =>
    let rs := checkPinHandler cid store
    ⟨rs.1, rs.2, true⟩

/-! ## Authorization pipeline state machine -/

/-- States of the per-request authorization pipeline of the spec. -/
inductive PState where
  | start
  | presenceChecked
  | validityChecked (customerId : String)
  | allowed (customerId : String)
  | rejected (e : ErrKind)
  deriving DecidableEq, Repr

/-- One transition of the authorization pipeline: token-presence-check,
then token-validity-check, then identity-match-check; a failed check moves
to the terminal rejected state with the error kind of that check. -/
def pstep (h : Header) (secret : String) (now : Nat) (target : Option String) :
    PState → PState
  | PState.start =>
    match h with
    | Header.bearer _ => PState.presenceChecked
    | _ => PState.rejected ErrKind.noToken
  | PState.presenceChecked =>
    match h with
    | Header.bearer t =>
      match jwtVerify t secret now with
      | some p => PState.validityChecked p.customerId
      | none => PState.rejected ErrKind.badToken
    | _ => PState.rejected ErrKind.noToken
  | PState.validityChecked cid =>
    if protectCustomerData target cid then PState.allowed cid
    else PState.rejected ErrKind.idorMismatch
  | PState.allowed cid => PState.allowed cid
  | PState.rejected e => PState.rejected e

/-- The three checks of the pipeline run in sequence from the start
state. -/
def runPipeline (h : Header) (secret : String) (now : Nat)
    (target : Option String) : PState :=
  pstep h secret now target (pstep h secret now target (pstep h secret now target PState.start))

/-! ## Reachable stores -/

/-- Well-formedness of the credential store: every key and every stored
pinHash is nonempty.  Both are enforced by the register-pin handler, the
only writer. -/
def storeWF (store : Store) : Prop :=
  ∀ p ∈ store, p.1 ≠ "" ∧ p.2.pinHash ≠ ""

/-- Stores reachable through the API: the store starts empty and is only
mutated by the register-pin endpoint. -/
inductive Reachable (secret : String) : Store → Prop where
  | init : Reachable secret []
  | step (h : Header) (now : Nat) (body : RegisterBody) {s : Store} :
      Reachable secret s →
      Reachable secret (postRegisterPin h secret now body s).store

/-! ## Frontend sign-in (frontend/src/App.js) -/

/-- Result of a frontend validation helper. -/
structure VResult where
  valid : Bool
  error : Option String := none
  deriving DecidableEq, Repr

/-- Character class of the regular expression [a-zA-Z0-9_-]. -/
def isIdChar (c : Char) : Bool :=
  c.isAlpha || c.isDigit || c = '-' || c = '_'

/-- validateCustomerId from frontend/src/App.js. -/
def validateCustomerId (id : String) : VResult :=
  if id = "" then ⟨false, some "Customer ID is required"⟩
  else if id.length < 3 then ⟨false, some "Customer ID must be at least 3 characters"⟩
  else if id.length > 20 then ⟨false, some "Customer ID cannot exceed 20 characters"⟩
  else if !id.data.all isIdChar then
    ⟨false, some "Customer ID can only contain letters, numbers, hyphens, and underscores"⟩
  else ⟨true, none⟩

/-- validatePin from frontend/src/App.js. -/
def validatePin (pin : String) : VResult :=
  if pin = "" then ⟨false, some "PIN is required"⟩
  else if !pin.data.all Char.isDigit then ⟨false, some "PIN must contain only digits"⟩
  else if pin.length < 4 then ⟨false, some "PIN must be at least 4 digits"⟩
  else if pin.length > 6 then ⟨false, some "PIN cannot exceed 6 digits"⟩
  else ⟨true, none⟩

/-- The browser localStorage slots read by handleSignIn. -/
structure LocalStorage where
  customerId : Option String
  pinHash : Option String
  deriving DecidableEq, Repr

/-- The pieces of component state touched by handleSignIn. -/
structure AppState where
  registeredPin : Bool
  error : String
  response : String
  screen : String
  pin : String
  deriving DecidableEq, Repr

/-- handleSignIn from frontend/src/App.js: validate the entered fields,
compare the entered customerId and the simpleHash of the entered PIN
against localStorage, and either report success (setting registeredPin)
or set an error message; the success branch moves to the pin screen when
a merchant payment is pending, and otherwise shows the success message
and returns to the home screen after the timeout.  The handler performs
no network request: it reads only its arguments. -/
def handleSignIn (enteredId enteredPin merchantId amount : String)
    (ls : LocalStorage) (st : AppState) : AppState :=
  if (validateCustomerId enteredId).valid = false then
    { st with error := (validateCustomerId enteredId).error.getD "" }
  else if (validatePin enteredPin).valid = false then
    { st with error := (validatePin enteredPin).error.getD "" }
  else if !jsTruthyOpt ls.customerId || !jsTruthyOpt ls.pinHash then
    { st with error := "No account found. Please register first." }
  else if ls.customerId.getD "" ≠ enteredId then
    { st with error := "Customer ID not found" }
  else if ls.pinHash.getD "" ≠ simpleHash enteredPin then
    { st with error := "Wrong PIN" }
  else
    let st1 := { st with registeredPin := true, error := "" }
    if jsTruthyStr merchantId && jsTruthyStr amount then
      { st1 with pin := "", screen := "pin" }
    else
      { st1 with response := "✓ Signed in successfully!", screen := "home" }

/-! ## Lemmas about the hash -/

theorem toInt32_bounds (n : Int) :
    -2147483648 ≤ toInt32 n ∧ toInt32 n < 2147483648 := by
  have h1 : 0 ≤ n % 4294967296 := Int.emod_nonneg n (by norm_num)
  have h2 : n % 4294967296 < 4294967296 := Int.emod_lt_of_pos n (by norm_num)
  unfold toInt32
  split <;> omega

theorem foldl_jsHashStep_bounds (l : List Char) (h0 : Int)
    (hb : -2147483648 ≤ h0 ∧ h0 < 2147483648) :
    -2147483648 ≤ l.foldl jsHashStep h0 ∧ l.foldl jsHashStep h0 < 2147483648 := by
  induction l generalizing h0 with
  | nil => simpa using hb
  | cons c cs ih =>
    rw [List.foldl_cons]
    exact ih _ (toInt32_bounds _)

theorem hexDigitChar_hex : ∀ m : Nat, m < 16 → isHexChar (hexDigitChar m) = true := by
  decide

theorem hexRep_all_hex (n : Nat) : (hexRep n).all isHexChar = true := by
  induction n using Nat.strong_induction_on with
  | _ n ih =>
    rw [hexRep]
    split
    · simpa using hexDigitChar_hex n (by omega)
    · rename_i h16
      rw [List.all_append]
      refine Bool.and_eq_true_iff.mpr ⟨ih (n / 16) (Nat.div_lt_self (by omega) (by omega)), ?_⟩
      simpa using hexDigitChar_hex (n % 16) (Nat.mod_lt n (by omega))

theorem hexRep_length_le : ∀ (k n : Nat), 0 < k → n < 16 ^ k → (hexRep n).length ≤ k := by
  intro k
  induction k with
  | zero => omega
  | succ k ih =>
    intro n _ hn
    rw [hexRep]
    split
    · simp
    · rename_i h16
      have hdiv : n / 16 < 16 ^ k := by
        rw [Nat.div_lt_iff_lt_mul (by omega)]
        calc n < 16 ^ (k + 1) := hn
        _ = 16 ^ k * 16 := by ring
      have hk : 0 < k := by
        rcases Nat.eq_zero_or_pos k with h0 | h0
        · subst h0
          simp at hn
          omega
        · exact h0
      have hlen := ih (n / 16) hk hdiv
      simp only [List.length_append, List.length_singleton]
      omega

/-- The claim C9 depends on the digit count of the 32-bit hash staying
below the pad width. -/
theorem simpleHash_digits_le (s : String) :
    (hexRep (s.data.foldl jsHashStep 0).natAbs).length ≤ 8 := by
  have hb := foldl_jsHashStep_bounds s.data 0 (by norm_num)
  apply hexRep_length_le 8 _ (by norm_num)
  have : (s.data.foldl jsHashStep 0).natAbs ≤ 2147483648 := by omega
  norm_num
  omega

/-- C9: the client-side PIN-hashing function simpleHash is a pure
deterministic function: for every input string it returns a string
consisting of 0x followed by exactly 64 hexadecimal characters, and two
calls on equal inputs always return equal outputs. -/
theorem simpleHash_format (s : String) :
    (simpleHash s).length = 66 ∧
    (simpleHash s).data.take 2 = ['0', 'x'] ∧
    ((simpleHash s).data.drop 2).length = 64 ∧
    ((simpleHash s).data.drop 2).all isHexChar = true ∧
    (∀ t : String, t.data = s.data → simpleHash t = simpleHash s) := by
  have hlen := simpleHash_digits_le s
  have hdata : (simpleHash s).data =
      '0' :: 'x' ::
        (List.replicate (64 - (hexRep (s.data.foldl jsHashStep 0).natAbs).length) '0' ++
          hexRep (s.data.foldl jsHashStep 0).natAbs) := rfl
  refine ⟨?_, ?_, ?_, ?_, ?_⟩
  · have : (simpleHash s).length = (simpleHash s).data.length := rfl
    rw [this, hdata]
    simp only [List.length_cons, List.length_append, List.length_replicate]
    omega
  · rw [hdata]
    rfl
  · rw [hdata]
    simp only [List.drop_succ_cons, List.drop_zero, List.length_append,
      List.length_replicate]
    omega
  · rw [hdata]
    simp only [List.drop_succ_cons, List.drop_zero, List.all_append,
      Bool.and_eq_true_iff]
    refine ⟨?_, hexRep_all_hex _⟩
    rw [List.all_eq_true]
    intro c hc
    rw [List.eq_of_mem_replicate hc]
    decide
  · intro t ht
    simp only [simpleHash, ht]

/-- Witness for C9 at the concrete PIN 1234. -/
theorem simpleHash_format_witness :
    ("1234" : String).data = ("1234" : String).data ∧
    simpleHash "1234" = simpleHash "1234" ∧
    (simpleHash "1234").length = 66 :=
  ⟨rfl, (simpleHash_format "1234").2.2.2.2 "1234" rfl, (simpleHash_format "1234").1⟩

/-! ## Store invariants -/

theorem jsTruthyOpt_getD {o : Option String} (h : jsTruthyOpt o = true) :
    o.getD "" ≠ "" := by
  cases o with
  | none => simp [jsTruthyOpt] at h
  | some s => simpa [jsTruthyOpt] using h

theorem lookupStore_wf {store : Store} (hwf : storeWF store) {cid : String}
    {rec : PinRecord} (h : lookupStore store cid = some rec) :
    cid ≠ "" ∧ rec.pinHash ≠ "" := by
  induction store with
  | nil => simp [lookupStore] at h
  | cons p rest ih =>
    obtain ⟨k, r⟩ := p
    simp only [lookupStore] at h
    by_cases hk : k = cid
    · rw [if_pos hk] at h
      obtain ⟨h1, h2⟩ := hwf (k, r) (by simp)
      cases h
      subst hk
      exact ⟨h1, h2⟩
    · rw [if_neg hk] at h
      exact ih (fun q hq => hwf q (List.mem_cons_of_mem _ hq)) h

theorem storeWF_putStore {store : Store} (hwf : storeWF store) {cid : String}
    {rec : PinRecord} (hcid : cid ≠ "") (hph : rec.pinHash ≠ "") :
    storeWF (putStore store cid rec) := by
  induction store with
  | nil =>
    intro p hp
    simp only [putStore, List.mem_singleton] at hp
    subst hp
    exact ⟨hcid, hph⟩
  | cons q rest ih =>
    obtain ⟨k, r⟩ := q
    intro p hp
    simp only [putStore] at hp
    by_cases hk : k = cid
    · rw [if_pos hk] at hp
      rcases List.mem_cons.mp hp with h1 | h2
      · subst h1
        exact ⟨hcid, hph⟩
      · exact hwf p (List.mem_cons_of_mem _ h2)
    · rw [if_neg hk] at hp
      rcases List.mem_cons.mp hp with h1 | h2
      · subst h1
        exact hwf (k, r) (by simp)
      · exact ih (fun q hq => hwf q (List.mem_cons_of_mem _ hq)) p h2

theorem reachable_storeWF {secret : String} {store : Store}
    (h : Reachable secret store) : storeWF store := by
  induction h with
  | init => intro p hp; simp at hp
  | step hH now body hr ih =>
    unfold postRegisterPin
    cases hg : gate hH secret now body.customerId with
    | rejected e => exact ih
    | allowed ctxCid =>
      simp only
      unfold registerPinHandler
      by_cases hmiss : (!jsTruthyOpt body.customerId || !jsTruthyOpt body.pinHash) = true
      · rw [if_pos hmiss]
        exact ih
      · rw [if_neg hmiss]
        simp only [Bool.or_eq_true, Bool.not_eq_true', not_or, Bool.not_eq_false] at hmiss
        obtain ⟨hc, hp⟩ := hmiss
        by_cases hown : body.customerId.getD "" ≠ ctxCid
        · rw [if_pos hown]
          exact ih
        · rw [if_neg hown]
          exact storeWF_putStore ih (jsTruthyOpt_getD hc) (jsTruthyOpt_getD hp)

/-- C2: for every customerId that has a stored credential record in a
store reachable through the API, a login request presenting exactly the
stored pinHash succeeds with HTTP 200 and returns a signed, time-limited
token whose embedded subject equals the requesting customerId; the store
is unchanged. -/
theorem login_correct_pin_issues_token (secret : String) {store : Store}
    (hreach : Reachable secret store) (cid : String) (rec : PinRecord)
    (hlook : lookupStore store cid = some rec) (now : Nat) :
    (postLogin store ⟨some cid, some rec.pinHash⟩ secret now).1.status = 200 ∧
    (postLogin store ⟨some cid, some rec.pinHash⟩ secret now).1.token =
      some (Jwt.signed ⟨cid, true, now⟩ secret (now + JWT_EXPIRY_SECONDS)) ∧
    (postLogin store ⟨some cid, some rec.pinHash⟩ secret now).1.customerId = some cid ∧
    (postLogin store ⟨some cid, some rec.pinHash⟩ secret now).2 = store := by
  obtain ⟨hcid, hph⟩ := lookupStore_wf (reachable_storeWF hreach) hlook
  unfold postLogin
  simp [jsTruthyOpt, hcid, hph, hlook, jwtSign]

/-- Witness for C2: register alice through the API, then log in with the
stored hash. -/
theorem login_correct_pin_issues_token_witness :
    lookupStore
        (postRegisterPin (Header.bearer (Jwt.signed ⟨"alice", true, 0⟩ "sec" 5))
          "sec" 0 ⟨some "alice", some "h1", some "salt1"⟩ []).store "alice" =
      some ⟨"h1", "salt1"⟩ ∧
    (postLogin
        (postRegisterPin (Header.bearer (Jwt.signed ⟨"alice", true, 0⟩ "sec" 5))
          "sec" 0 ⟨some "alice", some "h1", some "salt1"⟩ []).store
        ⟨some "alice", some "h1"⟩ "sec" 7).1.status = 200 :=
  ⟨by decide,
   (login_correct_pin_issues_token "sec"
      (Reachable.step (Header.bearer (Jwt.signed ⟨"alice", true, 0⟩ "sec" 5)) 0
        ⟨some "alice", some "h1", some "salt1"⟩ Reachable.init)
      "alice" ⟨"h1", "salt1"⟩ (by decide) 7).1⟩

/-- C3: for every login request with both fields present, if no
credential record exists for the customerId, or the presented pinHash
differs from the stored pinHash under string comparison, the response is
a 401 AuthenticationError, the response carries no token, and the
credential store is unchanged. -/
theorem login_bad_credentials_rejected (store : Store) (body : LoginBody)
    (secret : String) (now : Nat)
    (hc : jsTruthyOpt body.customerId = true)
    (hp : jsTruthyOpt body.pinHash = true)
    (hfail : lookupStore store (body.customerId.getD "") = none ∨
      ∃ rec, lookupStore store (body.customerId.getD "") = some rec ∧
        rec.pinHash ≠ body.pinHash.getD "") :
    (postLogin store body secret now).1.status = 401 ∧
    (postLogin store body secret now).1.error = some "Authentication failed" ∧
    (postLogin store body secret now).1.token = none ∧
    (postLogin store body secret now).1.errClass = some ErrClass.authentication ∧
    (postLogin store body secret now).2 = store := by
  unfold postLogin
  rw [hc, hp]
  simp only [Bool.not_true, Bool.or_self, Bool.false_eq_true, if_false]
  rcases hfail with hnone | ⟨rec, hsome, hne⟩
  · rw [hnone]
    simp
  · rw [hsome]
    simp [hne]

/-- Witness for C3: an unregistered customer and a registered customer
with a wrong hash are both turned away without a token. -/
theorem login_bad_credentials_rejected_witness :
    (postLogin [("alice", ⟨"h1", "s1"⟩)] ⟨some "bob", some "h9"⟩ "sec" 3).1.status = 401 ∧
    (postLogin [("alice", ⟨"h1", "s1"⟩)] ⟨some "bob", some "h9"⟩ "sec" 3).1.token = none ∧
    (postLogin [("alice", ⟨"h1", "s1"⟩)] ⟨some "alice", some "h9"⟩ "sec" 3).1.status = 401 ∧
    (postLogin [("alice", ⟨"h1", "s1"⟩)] ⟨some "alice", some "h9"⟩ "sec" 3).1.token = none :=
  ⟨(login_bad_credentials_rejected [("alice", ⟨"h1", "s1"⟩)] ⟨some "bob", some "h9"⟩
      "sec" 3 (by decide) (by decide) (Or.inl (by decide))).1,
   (login_bad_credentials_rejected [("alice", ⟨"h1", "s1"⟩)] ⟨some "bob", some "h9"⟩
      "sec" 3 (by decide) (by decide) (Or.inl (by decide))).2.2.1,
   (login_bad_credentials_rejected [("alice", ⟨"h1", "s1"⟩)] ⟨some "alice", some "h9"⟩
      "sec" 3 (by decide) (by decide)
      (Or.inr ⟨⟨"h1", "s1"⟩, by decide, by decide⟩)).1,
   (login_bad_credentials_rejected [("alice", ⟨"h1", "s1"⟩)] ⟨some "alice", some "h9"⟩
      "sec" 3 (by decide) (by decide)
      (Or.inr ⟨⟨"h1", "s1"⟩, by decide, by decide⟩)).2.2.1⟩

/-- C8: for every login request in which the customerId field or the
pinHash field is missing, the response is the fixed 400 ValidationError
response, which is independent of the credential store and carries no
token. -/
theorem login_missing_fields_validation_error (store : Store) (body : LoginBody)
    (secret : String) (now : Nat)
    (hmiss : jsTruthyOpt body.customerId = false ∨ jsTruthyOpt body.pinHash = false) :
    postLogin store body secret now = (loginMissingFieldsResponse, store) ∧
    loginMissingFieldsResponse.status = 400 ∧
    loginMissingFieldsResponse.token = none ∧
    loginMissingFieldsResponse.errClass = some ErrClass.validation := by
  refine ⟨?_, rfl, rfl, rfl⟩
  unfold postLogin
  rcases hmiss with h | h <;> rw [h] <;> simp

/-- Witness for C8: a login request lacking the pinHash field against a
populated store. -/
theorem login_missing_fields_validation_error_witness :
    postLogin [("alice", ⟨"h1", "s1"⟩)] ⟨some "alice", none⟩ "sec" 3 =
      (loginMissingFieldsResponse, [("alice", ⟨"h1", "s1"⟩)]) ∧
    loginMissingFieldsResponse.token = none :=
  ⟨(login_missing_fields_validation_error [("alice", ⟨"h1", "s1"⟩)]
      ⟨some "alice", none⟩ "sec" 3 (Or.inr (by decide))).1,
   (login_missing_fields_validation_error [("alice", ⟨"h1", "s1"⟩)]
      ⟨some "alice", none⟩ "sec" 3 (Or.inr (by decide))).2.2.1⟩

/-- C4: the token-verification middleware responds 401 when no bearer
token is present, responds 403 (distinguished from the missing case) when
the token is malformed, signed with a different secret, or expired, and
otherwise attaches the embedded customerId to the request context and
lets the request proceed. -/
theorem authenticateToken_cases :
    (∀ secret now, authenticateToken Header.missing secret now = AuthResult.noToken) ∧
    (∀ raw secret now,
      authenticateToken (Header.noSecondPart raw) secret now = AuthResult.noToken) ∧
    (renderErr ErrKind.noToken).status = 401 ∧
    (∀ t secret now, jwtVerify t secret now = none →
      authenticateToken (Header.bearer t) secret now = AuthResult.invalidToken) ∧
    (∀ raw secret now,
      authenticateToken (Header.bearer (Jwt.malformed raw)) secret now =
        AuthResult.invalidToken) ∧
    (∀ p s secret exp now, s ≠ secret →
      authenticateToken (Header.bearer (Jwt.signed p s exp)) secret now =
        AuthResult.invalidToken) ∧
    (∀ p secret exp now, exp ≤ now →
      authenticateToken (Header.bearer (Jwt.signed p secret exp)) secret now =
        AuthResult.invalidToken) ∧
    (renderErr ErrKind.badToken).status = 403 ∧
    (∀ t secret now p, jwtVerify t secret now = some p →
      authenticateToken (Header.bearer t) secret now = AuthResult.ok p.customerId) := by
  refine ⟨fun _ _ => rfl, fun _ _ _ => rfl, rfl, ?_, fun _ _ _ => rfl, ?_, ?_, rfl, ?_⟩
  · intro t secret now hv
    simp [authenticateToken, hv]
  · intro p s secret exp now hs
    simp [authenticateToken, jwtVerify, hs]
  · intro p secret exp now hexp
    have hlt : ¬ now < exp := by omega
    simp [authenticateToken, jwtVerify, hlt]
  · intro t secret now p hv
    simp [authenticateToken, hv]

/-- Witness for C4: the three middleware outcomes at concrete inputs. -/
theorem authenticateToken_cases_witness :
    authenticateToken Header.missing "sec" 0 = AuthResult.noToken ∧
    authenticateToken (Header.bearer (Jwt.malformed "xx")) "sec" 0 =
      AuthResult.invalidToken ∧
    authenticateToken (Header.bearer (Jwt.signed ⟨"alice", true, 0⟩ "sec" 9)) "sec" 20 =
      AuthResult.invalidToken ∧
    authenticateToken (Header.bearer (Jwt.signed ⟨"alice", true, 0⟩ "sec" 9)) "sec" 3 =
      AuthResult.ok "alice" :=
  ⟨authenticateToken_cases.1 "sec" 0,
   authenticateToken_cases.2.2.2.2.1 "xx" "sec" 0,
   authenticateToken_cases.2.2.2.2.2.2.1 ⟨"alice", true, 0⟩ "sec" 9 20 (by omega),
   authenticateToken_cases.2.2.2.2.2.2.2.2 (Jwt.signed ⟨"alice", true, 0⟩ "sec" 9)
     "sec" 3 ⟨"alice", true, 0⟩ (by decide)⟩

/-- C1: on both protected endpoints, a request authenticated as A that
names a target customerId B distinct from A is rejected with the 403
AuthorizationError of the ownership check, the downstream handler does
not run, and the credential store is unchanged, regardless of whether B
is registered. -/
theorem idor_cross_customer_rejected :
    (∀ h secret now store body A B,
      authenticateToken h secret now = AuthResult.ok A →
      body.customerId = some B → B ≠ A →
      postRegisterPin h secret now body store =
        ⟨renderErr ErrKind.idorMismatch, store, false⟩) ∧
    (∀ h secret now store pathCid A,
      authenticateToken h secret now = AuthResult.ok A →
      pathCid ≠ A →
      getCheckPin h secret now pathCid store =
        ⟨renderErr ErrKind.idorMismatch, store, false⟩) ∧
    (renderErr ErrKind.idorMismatch).status = 403 ∧
    (renderErr ErrKind.idorMismatch).errClass = some ErrClass.authorization := by
  refine ⟨?_, ?_, rfl, rfl⟩
  · intro h secret now store body A B hauth htarget hne
    unfold postRegisterPin gate
    rw [hauth, htarget]
    simp [protectCustomerData, hne]
  · intro h secret now store pathCid A hauth hne
    unfold getCheckPin gate
    rw [hauth]
    simp [protectCustomerData, hne]

/-- Witness for C1: a token for alice targeting bob on both endpoints,
with bob registered on one of them and unregistered on the other. -/
theorem idor_cross_customer_rejected_witness :
    postRegisterPin (Header.bearer (Jwt.signed ⟨"alice", true, 0⟩ "sec" 9)) "sec" 3
        ⟨some "bob", some "h2", none⟩ [("bob", ⟨"x", "y"⟩)] =
      ⟨renderErr ErrKind.idorMismatch, [("bob", ⟨"x", "y"⟩)], false⟩ ∧
    getCheckPin (Header.bearer (Jwt.signed ⟨"alice", true, 0⟩ "sec" 9)) "sec" 3
        "bob" [] =
      ⟨renderErr ErrKind.idorMismatch, [], false⟩ :=
  ⟨idor_cross_customer_rejected.1 (Header.bearer (Jwt.signed ⟨"alice", true, 0⟩ "sec" 9))
      "sec" 3 [("bob", ⟨"x", "y"⟩)] ⟨some "bob", some "h2", none⟩ "alice" "bob"
      (by decide) rfl (by decide),
   idor_cross_customer_rejected.2.1 (Header.bearer (Jwt.signed ⟨"alice", true, 0⟩ "sec" 9))
      "sec" 3 [] "bob" "alice" (by decide) (by decide)⟩

/-- C7: the authorization pipeline is strictly sequential and
short-circuiting: the rejected state is terminal, three steps of the
state machine from the start state reach ALLOWED exactly when the
middleware chain admits the request and reach REJECTED with exactly the
error kind of the failed check, and on both protected endpoints a
rejected gate produces the response of that check while the downstream
handler does not execute and the store is unchanged. -/
theorem auth_pipeline_sequential :
    (∀ h secret now target e,
      pstep h secret now target (PState.rejected e) = PState.rejected e) ∧
    (∀ h secret now target cid,
      runPipeline h secret now target = PState.allowed cid ↔
        gate h secret now target = GateResult.allowed cid) ∧
    (∀ h secret now target e,
      runPipeline h secret now target = PState.rejected e ↔
        gate h secret now target = GateResult.rejected e) ∧
    (∀ h secret now body store e,
      gate h secret now body.customerId = GateResult.rejected e →
      postRegisterPin h secret now body store = ⟨renderErr e, store, false⟩) ∧
    (∀ h secret now pathCid store e,
      gate h secret now (some pathCid) = GateResult.rejected e →
      getCheckPin h secret now pathCid store = ⟨renderErr e, store, false⟩) ∧
    (∀ h secret now body store cid,
      gate h secret now body.customerId = GateResult.allowed cid →
      (postRegisterPin h secret now body store).handlerRan = true) := by
  refine ⟨fun _ _ _ _ _ => rfl, ?_, ?_, ?_, ?_, ?_⟩
  · intro h secret now target cid
    cases h with
    | missing => simp [runPipeline, pstep, gate, authenticateToken]
    | noSecondPart raw => simp [runPipeline, pstep, gate, authenticateToken]
    | bearer t =>
      cases hv : jwtVerify t secret now with
      | none => simp [runPipeline, pstep, gate, authenticateToken, hv]
      | some p =>
        by_cases hpc : protectCustomerData target p.customerId = true
        · simp [runPipeline, pstep, gate, authenticateToken, hv, hpc]
        · simp [runPipeline, pstep, gate, authenticateToken, hv, hpc]
  · intro h secret now target e
    cases h with
    | missing => simp [runPipeline, pstep, gate, authenticateToken]
    | noSecondPart raw => simp [runPipeline, pstep, gate, authenticateToken]
    | bearer t =>
      cases hv : jwtVerify t secret now with
      | none => simp [runPipeline, pstep, gate, authenticateToken, hv]
      | some p =>
        by_cases hpc : protectCustomerData target p.customerId = true
        · simp [runPipeline, pstep, gate, authenticateToken, hv, hpc]
        · simp [runPipeline, pstep, gate, authenticateToken, hv, hpc]
  · intro h secret now body store e hg
    unfold postRegisterPin
    rw [hg]
  · intro h secret now pathCid store e hg
    unfold getCheckPin
    rw [hg]
  · intro h secret now body store cid hg
    unfold postRegisterPin
    rw [hg]

/-- Witness for C7: the pipeline at a valid request, a cross-customer
request, and a token-free request. -/
theorem auth_pipeline_sequential_witness :
    runPipeline (Header.bearer (Jwt.signed ⟨"alice", true, 0⟩ "sec" 9)) "sec" 3
        (some "alice") = PState.allowed "alice" ∧
    runPipeline (Header.bearer (Jwt.signed ⟨"alice", true, 0⟩ "sec" 9)) "sec" 3
        (some "bob") = PState.rejected ErrKind.idorMismatch ∧
    postRegisterPin Header.missing "sec" 3 ⟨some "alice", some "h1", none⟩ [] =
      ⟨renderErr ErrKind.noToken, [], false⟩ :=
  ⟨(auth_pipeline_sequential.2.1 (Header.bearer (Jwt.signed ⟨"alice", true, 0⟩ "sec" 9))
      "sec" 3 (some "alice") "alice").mpr (by decide),
   (auth_pipeline_sequential.2.2.1 (Header.bearer (Jwt.signed ⟨"alice", true, 0⟩ "sec" 9))
      "sec" 3 (some "bob") ErrKind.idorMismatch).mpr (by decide),
   auth_pipeline_sequential.2.2.2.1 Header.missing "sec" 3
      ⟨some "alice", some "h1", none⟩ [] ErrKind.noToken (by decide)⟩

/-- C5 evidence: with the credential store empty, no registration is
possible: the register-pin endpoint rejects every tokenless request with
the 401 of the token-presence check without touching the store, and the
login endpoint, the only source of tokens, never answers 200 and never
issues a token against the empty store. -/
theorem bootstrap_registration_impossible :
    (∀ secret now body store,
      postRegisterPin Header.missing secret now body store =
        ⟨renderErr ErrKind.noToken, store, false⟩) ∧
    (renderErr ErrKind.noToken).status = 401 ∧
    (∀ body secret now,
      (postLogin [] body secret now).1.token = none ∧
      (postLogin [] body secret now).1.status ≠ 200) := by
  refine ⟨fun secret now body store => rfl, rfl, ?_⟩
  intro body secret now
  unfold postLogin
  by_cases hmiss : (!jsTruthyOpt body.customerId || !jsTruthyOpt body.pinHash) = true
  · rw [if_pos hmiss]
    simp [loginMissingFieldsResponse]
  · rw [if_neg hmiss]
    simp [lookupStore]

/-- C6 counterexample: against a store holding only alice, the
unregistered-customer failure and the wrong-hash failure share the status
code but have different response bodies, so the claim of equal bodies
fails. -/
theorem login_failure_messages_differ_cex :
    (postLogin [("alice", ⟨"h1", "s1"⟩)] ⟨some "bob", some "h1"⟩ "sec" 0).1.status =
      (postLogin [("alice", ⟨"h1", "s1"⟩)] ⟨some "alice", some "h2"⟩ "sec" 0).1.status ∧
    (postLogin [("alice", ⟨"h1", "s1"⟩)] ⟨some "bob", some "h1"⟩ "sec" 0).1.message ≠
      (postLogin [("alice", ⟨"h1", "s1"⟩)] ⟨some "alice", some "h2"⟩ "sec" 0).1.message := by
  decide

/-- C6 amended: the unregistered-customerId failure and the wrong-pinHash
failure share the status code 401 and the error field, and neither issues
a token, but their message fields are the two distinct fixed strings, so
a caller can tell from the response whether an identifier is
registered. -/
theorem login_failures_same_status_distinct_messages
    (store : Store) (secret : String) (now : Nat)
    (u p1 v p2 : String) (rec : PinRecord)
    (hu : u ≠ "") (hp1 : p1 ≠ "") (hul : lookupStore store u = none)
    (hv : v ≠ "") (hp2 : p2 ≠ "") (hvl : lookupStore store v = some rec)
    (hne : rec.pinHash ≠ p2) :
    (postLogin store ⟨some u, some p1⟩ secret now).1.status = 401 ∧
    (postLogin store ⟨some v, some p2⟩ secret now).1.status = 401 ∧
    (postLogin store ⟨some u, some p1⟩ secret now).1.error = some "Authentication failed" ∧
    (postLogin store ⟨some v, some p2⟩ secret now).1.error = some "Authentication failed" ∧
    (postLogin store ⟨some u, some p1⟩ secret now).1.token = none ∧
    (postLogin store ⟨some v, some p2⟩ secret now).1.token = none ∧
    (postLogin store ⟨some u, some p1⟩ secret now).1.message =
      some "No PIN registered for this customer. Please register first." ∧
    (postLogin store ⟨some v, some p2⟩ secret now).1.message =
      some "Invalid PIN. Authentication failed." := by
  unfold postLogin
  simp [jsTruthyOpt, hu, hp1, hv, hp2, hul, hvl, hne]

/-- Witness for the amended C6 at a concrete store. -/
theorem login_failures_same_status_distinct_messages_witness :
    (postLogin [("alice", ⟨"h1", "s1"⟩)] ⟨some "bob", some "h1"⟩ "sec" 0).1.message =
      some "No PIN registered for this customer. Please register first." ∧
    (postLogin [("alice", ⟨"h1", "s1"⟩)] ⟨some "alice", some "h2"⟩ "sec" 0).1.message =
      some "Invalid PIN. Authentication failed." :=
  ⟨(login_failures_same_status_distinct_messages [("alice", ⟨"h1", "s1"⟩)] "sec" 0
      "bob" "h1" "alice" "h2" ⟨"h1", "s1"⟩ (by decide) (by decide) (by decide)
      (by decide) (by decide) (by decide) (by decide)).2.2.2.2.2.2.1,
   (login_failures_same_status_distinct_messages [("alice", ⟨"h1", "s1"⟩)] "sec" 0
      "bob" "h1" "alice" "h2" ⟨"h1", "s1"⟩ (by decide) (by decide) (by decide)
      (by decide) (by decide) (by decide) (by decide)).2.2.2.2.2.2.2⟩

theorem validateCustomerId_valid_ne_empty {id : String}
    (h : (validateCustomerId id).valid = true) : id ≠ "" := by
  intro he
  subst he
  simp [validateCustomerId] at h

theorem simpleHash_ne_empty (p : String) : simpleHash p ≠ "" := by
  intro h
  have h2 := congrArg String.data h
  simp only [simpleHash] at h2
  exact absurd h2 (by simp)

/-- C10: given inputs that pass the format validations, the frontend
sign-in handler reports success exactly when the locally stored
customerId equals the entered one and the locally stored pinHash equals
the simpleHash of the entered PIN, and in every other case it sets an
error message and leaves the signed-in state (and the screen) unchanged.
The handler takes no server state and produces no token. -/
theorem handleSignIn_local_check (enteredId enteredPin merchantId amount : String)
    (ls : LocalStorage) (st : AppState)
    (hc : (validateCustomerId enteredId).valid = true)
    (hp : (validatePin enteredPin).valid = true) :
    ((handleSignIn enteredId enteredPin merchantId amount ls st).error = "" ∧
       (handleSignIn enteredId enteredPin merchantId amount ls st).registeredPin = true ↔
      ls.customerId = some enteredId ∧ ls.pinHash = some (simpleHash enteredPin)) ∧
    (¬(ls.customerId = some enteredId ∧ ls.pinHash = some (simpleHash enteredPin)) →
      (handleSignIn enteredId enteredPin merchantId amount ls st).error ≠ "" ∧
      (handleSignIn enteredId enteredPin merchantId amount ls st).registeredPin =
        st.registeredPin ∧
      (handleSignIn enteredId enteredPin merchantId amount ls st).screen = st.screen ∧
      (handleSignIn enteredId enteredPin merchantId amount ls st).response =
        st.response) := by
  have hid : enteredId ≠ "" := validateCustomerId_valid_ne_empty hc
  have hhash : simpleHash enteredPin ≠ "" := simpleHash_ne_empty enteredPin
  unfold handleSignIn
  rw [hc, hp]
  simp only [Bool.true_eq_false, if_false]
  cases hlc : ls.customerId with
  | none =>
    simp [jsTruthyOpt]
  | some a =>
    cases hlp : ls.pinHash with
    | none =>
      simp [jsTruthyOpt]
    | some b =>
      by_cases ha : a = ""
      · subst ha
        simp [jsTruthyOpt, Ne.symm hid]
      · by_cases hb : b = ""
        · subst hb
          simp [jsTruthyOpt, ha, Ne.symm hhash]
        · simp only [jsTruthyOpt, ha, hb, Option.getD_some]
          by_cases hae : a = enteredId
          · subst hae
            by_cases hbe : b = simpleHash enteredPin
            · subst hbe
              simp only [ne_eq, not_true_eq_false, if_false]
              by_cases hma : (jsTruthyStr merchantId && jsTruthyStr amount) = true
              · simp [ha, hb, hma]
              · simp [ha, hb, hma]
            · simp [ha, hb, hbe]
          · simp [ha, hb, hae]

/-- Witness for C10 at matching and mismatching local credentials. -/
theorem handleSignIn_local_check_witness :
    (validateCustomerId "cust_123").valid = true ∧
    (validatePin "1234").valid = true ∧
    (handleSignIn "cust_123" "1234" "" ""
        ⟨some "cust_123", some (simpleHash "1234")⟩
        ⟨false, "", "", "signin", "1234"⟩).registeredPin = true ∧
    (handleSignIn "cust_123" "1234" "" ""
        ⟨some "other_1", some (simpleHash "1234")⟩
        ⟨false, "", "", "signin", "1234"⟩).registeredPin = false :=
  ⟨by decide, by decide,
   ((handleSignIn_local_check "cust_123" "1234" "" ""
        ⟨some "cust_123", some (simpleHash "1234")⟩
        ⟨false, "", "", "signin", "1234"⟩ (by decide) (by decide)).1.mpr
      ⟨rfl, rfl⟩).2,
   ((handleSignIn_local_check "cust_123" "1234" "" ""
        ⟨some "other_1", some (simpleHash "1234")⟩
        ⟨false, "", "", "signin", "1234"⟩ (by decide) (by decide)).2
      (by simp)).2.1⟩

end ZKPulse
